import Mathlib

/-!
Verification development for the stompest asynchronous STOMP client core.

The definitions below are a shallow embedding of the code in
`stompest/async/client.py` and `stompest/asynchronous/listener.py`:
Python dicts become association lists, timestamps and heart-beat
periods become exact rationals, fallible operations return `Except`,
and each event handler becomes a pure state-transition function.
Parts of the package that the repository fragment does not contain
(`stompest.asynchronous.util.InFlightOperations`, `WaitingDeferred`,
`StompSession`, `StompFailoverProtocol`) are modelled from the spec,
as indicated in the corresponding doc comments.
-/

namespace Stompest

/-- Error taxonomy of `stompest.error`, plus the Python builtin errors
(`KeyError`, `TypeError`, `ValueError`) that the client code can raise. -/
inductive StompErr where
  | connectionError (msg : String)
  | protocolError (msg : String)
  | cancelledError (msg : String)
  | frameError (msg : String)
  | keyError (msg : String)
  | typeError (msg : String)
  | valueError (msg : String)
  deriving DecidableEq

/-- Message text of an error (used when one error summarizes another). -/
def errMessage : StompErr → String
  | .connectionError m => m
  | .protocolError m => m
  | .cancelledError m => m
  | .frameError m => m
  | .keyError m => m
  | .typeError m => m
  | .valueError m => m

deriving instance DecidableEq for Except

/-! Association lists standing in for Python dicts. -/

/-- Dict lookup: first binding of the key, if any. -/
def assocGet {κ α : Type} [DecidableEq κ] : List (κ × α) → κ → Option α
  | [], _ => none
  | (k, v) :: rest, key => if k = key then some v else assocGet rest key

/-- Dict membership test (`key in d`). -/
def assocHas {κ α : Type} [DecidableEq κ] (l : List (κ × α)) (k : κ) : Bool :=
  (assocGet l k).isSome

/-- Dict deletion (`d.pop(key)` state change): removes the first binding. -/
def assocRemove {κ α : Type} [DecidableEq κ] : List (κ × α) → κ → List (κ × α)
  | [], _ => []
  | (k, v) :: rest, key => if k = key then rest else (k, v) :: assocRemove rest key

/-- In-place update of the first binding of a key, when present (models
mutation of the shared value object the dict points to). -/
def assocUpdate {κ α : Type} [DecidableEq κ] : List (κ × α) → κ → α → List (κ × α)
  | [], _, _ => []
  | (k0, v0) :: rest, k, v =>
      if k0 = k then (k0, v) :: rest else (k0, v0) :: assocUpdate rest k v

/-- Dict `setdefault(key, v)`: inserts the binding only when the key is absent. -/
def assocSetdefault {κ α : Type} [DecidableEq κ] (l : List (κ × α)) (k : κ) (v : α) :
    List (κ × α) :=
  if assocHas l k then l else l ++ [(k, v)]

/-! Plain character-list substring search, used for the header-text test
in `Stomp._onError` (Python `in` on strings). -/

/-- Whether `needle` occurs at the head of `l`. -/
def listStartsWith : List Char → List Char → Bool
  | _, [] => true
  | [], _ :: _ => false
  | a :: as, b :: bs => (a = b : Bool) && listStartsWith as bs

/-- Whether `needle` occurs anywhere inside `l` (Python `needle in l`). -/
def containsSub : List Char → List Char → Bool
  | [], needle => needle.isEmpty
  | a :: t, needle => listStartsWith (a :: t) needle || containsSub t needle

/-! Correlation registry.

`stompest.asynchronous.util.InFlightOperations` and `WaitingDeferred` are not
part of this repository fragment; only their unit tests
(`stompest/asynchronous/tests/async_util.py`) are.  The definitions in this
section are therefore modelled from the spec (§4.1 Correlation Registry) and
constrained by those unit tests. -/

/-- Modelled from the spec: a pending-operation handle
(`stompest.asynchronous.util.WaitingDeferred`, absent from the repository
fragment).  `called` records whether the deferred has fired, `result` the
outcome it fired with (a dummy `Nat` payload stands in for arbitrary
callback values). -/
structure WaitingDeferred where
  called : Bool
  result : Option (Except StompErr Nat)
  deriving DecidableEq

/-- A freshly created, still pending handle. -/
def WaitingDeferred.fresh : WaitingDeferred := ⟨false, none⟩

/-- Modelled from the spec: the correlation registry
(`stompest.asynchronous.util.InFlightOperations`, absent from the repository
fragment): a dict from keys to pending handles (§4.1). -/
structure InFlightOperations (κ : Type) where
  entries : List (κ × WaitingDeferred)
  deriving DecidableEq

/-- Dict lookup on the registry. -/
def InFlightOperations.get {κ : Type} [DecidableEq κ] (op : InFlightOperations κ) (k : κ) :
    Option WaitingDeferred :=
  assocGet op.entries k

/-- The currently registered keys, in insertion order (`list(op)`). -/
def InFlightOperations.keys {κ : Type} (op : InFlightOperations κ) : List κ :=
  op.entries.map Prod.fst

/-- Modelled from the spec: registration (`op[key] = handle`).  Per §4.1 and
`InFlightOperationsTest.test_dict_interface`, installing a handle for a key
that already has a live entry raises a key error instead of overwriting. -/
def InFlightOperations.setItem {κ : Type} [DecidableEq κ] (op : InFlightOperations κ)
    (k : κ) (w : WaitingDeferred) : Except StompErr (InFlightOperations κ) :=
  if assocHas op.entries k then .error (.keyError "already in progress")
  else .ok ⟨op.entries ++ [(k, w)]⟩

/-- Modelled from the spec: completion removal (`op.pop(key)`): returns the
handle and the registry without it; raises a key error when absent. -/
def InFlightOperations.pop {κ : Type} [DecidableEq κ] (op : InFlightOperations κ) (k : κ) :
    Except StompErr (WaitingDeferred × InFlightOperations κ) :=
  match assocGet op.entries k with
  | none => .error (.keyError "no such key")
  | some w => .ok (w, ⟨assocRemove op.entries k⟩)

/-- Modelled from the spec: entry into the scoped-acquisition helper
(`with op(key) as waiting`): installs a fresh pending handle for the key. -/
def InFlightOperations.ctxEnter {κ : Type} [DecidableEq κ] (op : InFlightOperations κ)
    (k : κ) : Except StompErr (InFlightOperations κ × WaitingDeferred) :=
  match op.setItem k WaitingDeferred.fresh with
  | .error e => .error e
  | .ok op1 => .ok (op1, WaitingDeferred.fresh)

/-- Modelled from the spec: exit from the scoped-acquisition helper: the key
is removed from the registry on every exit path, and the handle is fired if
it has not been completed yet. -/
def InFlightOperations.ctxExit {κ : Type} [DecidableEq κ] (op : InFlightOperations κ)
    (k : κ) (w : WaitingDeferred) : InFlightOperations κ × WaitingDeferred :=
  (⟨assocRemove op.entries k⟩, if w.called then w else ⟨true, some (.ok 0)⟩)

/-- Modelled from the spec: `WaitingDeferred.wait(timeout=0, fail=err)` on a
handle.  With timeout 0 the deadline expires immediately: a pending handle is
errbacked with exactly `err` and the wait fails with `err`.  The method acts
on the handle alone — it has no reference to the registry holding it (per
`InFlightOperationsTest.test_timeout`, the key is still registered right
after the wait fails). -/
def WaitingDeferred.waitTimeout0 (w : WaitingDeferred) (fail : StompErr) :
    WaitingDeferred × Except StompErr Nat :=
  if w.called then
    (w, match w.result with | some r => r | none => .error fail)
  else
    (⟨true, some (.error fail)⟩, .error fail)

/-- Outcome of running `InFlightOperationsTest.test_timeout` step by step:
the registry after the scoped entry, the result of the timeout-0 wait, the
registry right after that wait, and the registry after the scope exits. -/
structure TimeoutScenarioResult (κ : Type) where
  afterEnter : InFlightOperations κ
  waitResult : Except StompErr Nat
  afterWait : InFlightOperations κ
  afterExit : InFlightOperations κ
  deriving DecidableEq

/-- The timeout scenario of `InFlightOperationsTest.test_timeout`: enter the
scoped acquisition for `k`, wait on the handle with timeout 0 and error
`fail`, then leave the scope.  The registry entry aliases the mutable handle
object, so the errback performed by the expired wait is visible through the
registry (modelled by writing the fired handle back at the same key). -/
def timeoutScenario {κ : Type} [DecidableEq κ] (op : InFlightOperations κ) (k : κ)
    (fail : StompErr) : Except StompErr (TimeoutScenarioResult κ) :=
  match op.ctxEnter k with
  | .error e => .error e
  | .ok (op1, w) =>
      let step := w.waitTimeout0 fail
      let op2 : InFlightOperations κ := ⟨assocUpdate op1.entries k step.1⟩
      let exit := op2.ctxExit k step.1
      .ok ⟨op1, step.2, op2, exit.1⟩

/-! Heart-beat scheduler (`HeartBeatListener` in
`stompest/asynchronous/listener.py`).  Timestamps are seconds, negotiated
heart-beat periods are milliseconds, both as exact rationals. -/

/-- The two heart-beat directions of `HeartBeatListener._beat`:
`client` is outbound keep-alive, `server` is the inbound staleness watchdog. -/
inductive HBWhich where
  | client
  | server
  deriving DecidableEq

/-- Tolerance thresholds relative to the negotiated periods
(`HeartBeatListener._thresholds`). -/
structure HBThresholds where
  client : ℚ
  server : ℚ
  deriving DecidableEq

/-- `HeartBeatListener.DEFAULT_THRESHOLDS`. -/
def DEFAULT_THRESHOLDS : HBThresholds := ⟨4 / 5, 2⟩

/-- The slice of `StompSession` state that `_beatRemaining` reads: negotiated
periods (milliseconds, 0 = disabled) and last-activity timestamps (seconds). -/
structure HBSession where
  clientHeartBeat : ℚ
  serverHeartBeat : ℚ
  lastSent : ℚ
  lastReceived : ℚ
  deriving DecidableEq

/-- Threshold for a direction (`self._thresholds[which]`). -/
def HBThresholds.get (th : HBThresholds) : HBWhich → ℚ
  | .client => th.client
  | .server => th.server

/-- Negotiated period for a direction
(`{'client': session.clientHeartBeat, 'server': session.serverHeartBeat}[which]`). -/
def HBSession.heartBeat (s : HBSession) : HBWhich → ℚ
  | .client => s.clientHeartBeat
  | .server => s.serverHeartBeat

/-- Last-activity timestamp for a direction
(`{'client': session.lastSent, 'server': session.lastReceived}[which]`). -/
def HBSession.lastActivity (s : HBSession) : HBWhich → ℚ
  | .client => s.lastSent
  | .server => s.lastReceived

/-- `HeartBeatListener._beatRemaining(session, which)` at current time `now`:
`-1` when the direction is disabled, otherwise
`max(threshold * heartBeat / 1000.0 - elapsed, 0)`. -/
def beatRemaining (th : HBThresholds) (s : HBSession) (which : HBWhich) (now : ℚ) : ℚ :=
  let heartBeat := s.heartBeat which
  if heartBeat = 0 then -1
  else max (th.get which * heartBeat / 1000 - (now - s.lastActivity which)) 0

/-- Observable outcome of one firing of `HeartBeatListener._beat`:
how many heart-beat frames were emitted, the failure passed to
`connection.disconnect` (if any), the delay of the rescheduled timer
(`none` when the timer is not re-armed), and the session afterwards. -/
structure BeatResult where
  beatsSent : ℕ
  disconnectReason : Option StompErr
  rearm : Option ℚ
  session : HBSession
  deriving DecidableEq

/-- `HeartBeatListener._beat(connection, which)` at current time `now`, with a
live connection.  When a heart-beat frame is sent, `connection.sendFrame`
dispatches `onSend` to the listeners and `HeartBeatListener.onSend` calls
`session.sent()`; that recording of outbound activity (`lastSent := now`) is
modelled from the spec (§4.3: a sent frame updates outbound activity), since
`stompest/asynchronous/client.py` and `StompSession.sent` are outside the
repository fragment. -/
def beat (th : HBThresholds) (s : HBSession) (which : HBWhich) (now : ℚ) : BeatResult :=
  let remaining := beatRemaining th s which now
  if remaining < 0 then ⟨0, none, none, s⟩
  else if remaining = 0 then
    match which with
    | .client =>
        let s1 : HBSession := { s with lastSent := now }
        ⟨1, none, some (beatRemaining th s1 .client now), s1⟩
    | .server => ⟨0, some (.connectionError "Server heart-beat timeout"), none, s⟩
  else ⟨0, none, some remaining, s⟩

/-! STOMP frames, as consumed by the client code. -/

/-- A structured STOMP frame (§3 Frame): command, header mapping, body. -/
structure Frame where
  command : String
  headers : List (String × String)
  body : String
  deriving DecidableEq

/-- Modelled from the spec: the one-line summary `StompFrame.info()` used in
error messages (the frame class is outside the repository fragment; only the
summary's presence matters to the client code, not its exact text). -/
def Frame.info (f : Frame) : String := f.command ++ " frame"

/-- `frame.headers.get(name, default)`. -/
def Frame.headerGet (f : Frame) (name default : String) : String :=
  match assocGet f.headers name with
  | some v => v
  | none => default

/-- The broker-quirk marker text tested by `Stomp._onError`. -/
def AMQ_ACK_MARKER : String := "Unexpected ACK received for message-id"

/-- The quirk test of `Stomp._onError`:
`'Unexpected ACK received for message-id' in frame.headers.get('message', '')`. -/
def messageContainsMarker (f : Frame) : Bool :=
  containsSub (f.headerGet "message" "").toList AMQ_ACK_MARKER.toList

namespace Stomp

/-- What `Stomp._onError` does with an ERROR frame. -/
inductive ErrorAction where
  | rejectHandshake (e : StompErr)
  | logOnly
  | disconnectWith (e : StompErr)
  deriving DecidableEq

/-- `Stomp._onError(protocol, frame)`: while the connected-signal of the
handshake is still pending, errback it with a protocol error; otherwise, if
the message header contains the AMQ marker text, only log; otherwise
disconnect with a protocol error. -/
def onError (connectedSignalPending : Bool) (f : Frame) : ErrorAction :=
  if connectedSignalPending then
    .rejectHandshake (.protocolError ("While trying to connect, received " ++ f.info))
  else if messageContainsMarker f then
    .logOnly
  else
    .disconnectWith (.protocolError ("Received " ++ f.info))

end Stomp

/-! Failover connect (`Stomp._connectEndpoint`). -/

/-- Outcome of one transport connect attempt against a broker candidate:
either a connected protocol (identified by a number) or the transport
failure it raised. -/
inductive AttemptOutcome where
  | ok (protocolId : Nat)
  | fail (e : StompErr)
  deriving DecidableEq

/-- Modelled from the spec: the connection error raised when a finite
failover policy is exhausted without success — a connection error summarizing
the last failure (§4.2; `StompFailoverProtocol` is outside the repository
fragment, so the exhaustion error of its iterator is modelled here as the
base case of the candidate loop). -/
def exhaustedError (warnings : List StompErr) : StompErr :=
  .connectionError
    (match warnings.getLast? with
     | some e => "Could not connect [" ++ errMessage e ++ "]"
     | none => "Could not connect")

namespace Stomp

/-- The candidate loop of `Stomp._connectEndpoint`: for each
`(broker, delay)` pair of the failover sequence, sleep and attempt the
transport connect; a failure is logged as a warning and the loop advances to
the next candidate; a success returns the protocol and abandons the rest.
The second component is the accumulated warning log. -/
def connectEndpointGo : List (AttemptOutcome × ℚ) → List StompErr →
    Except StompErr Nat × List StompErr
  | [], warnings => (.error (exhaustedError warnings), warnings)
  | (outcome, _) :: rest, warnings =>
      match outcome with
      | .ok p => (.ok p, warnings)
      | .fail e => connectEndpointGo rest (warnings ++ [e])

/-- `Stomp._connectEndpoint()` over a finite failover sequence. -/
def connectEndpoint (attempts : List (AttemptOutcome × ℚ)) :
    Except StompErr Nat × List StompErr :=
  connectEndpointGo attempts []

end Stomp

/-! Graceful-disconnect listener (`DisconnectListener` in
`stompest/asynchronous/listener.py`). -/

/-- The private state of `DisconnectListener`: the `disconnecting` flag and
the recorded disconnect reason. -/
structure DisconnectListener where
  disconnecting : Bool
  disconnectReason : Option StompErr
  deriving DecidableEq

/-- `DisconnectListener.onAdd`: fresh state. -/
def DisconnectListener.onAdd : DisconnectListener := ⟨false, none⟩

/-- The `_disconnectReason` property setter: a null reason resets the record;
a non-null reason is logged and recorded only when no reason is recorded yet. -/
def DisconnectListener.setReason (dl : DisconnectListener) (reason : Option StompErr) :
    DisconnectListener :=
  match reason with
  | none => { dl with disconnectReason := none }
  | some r =>
      match dl.disconnectReason with
      | none => { dl with disconnectReason := some r }
      | some _ => dl

/-- `DisconnectListener.onDisconnect(connection, reason, timeout)`: runs the
reason through the setter, then sets the `disconnecting` flag (idempotent). -/
def DisconnectListener.onDisconnect (dl : DisconnectListener) (reason : Option StompErr) :
    DisconnectListener :=
  let dl1 := dl.setReason reason
  if dl1.disconnecting then dl1 else { dl1 with disconnecting := true }

/-- The terminal `disconnected` signal: fired with success or with the
recorded failure. -/
inductive TerminalSignal where
  | success
  | failed (e : StompErr)
  deriving DecidableEq

/-- Everything `DisconnectListener.onConnectionLost` does. -/
structure ConnectionLostResult where
  listener : DisconnectListener
  flushedSession : Bool
  signal : TerminalSignal
  deriving DecidableEq

/-- `DisconnectListener.onConnectionLost(connection, reason)`: when the loss
was not preceded by a disconnect request, record an unexpected-loss
connection error through the setter; close the session, flushing only when no
failure is recorded; fire the terminal signal with the recorded failure or
with success. -/
def DisconnectListener.onConnectionLost (dl : DisconnectListener) (reasonMsg : String) :
    ConnectionLostResult :=
  let dl1 :=
    if dl.disconnecting then dl
    else dl.setReason (some (.connectionError
      ("Unexpected connection loss [" ++ reasonMsg ++ "]")))
  { listener := dl1
    flushedSession := (dl1.disconnectReason).isNone
    signal :=
      match dl1.disconnectReason with
      | some e => .failed e
      | none => .success }

/-! Per-subscription message listener (`SubscriptionListener` in
`stompest/asynchronous/listener.py`). -/

/-- `SubscriptionListener.DEFAULT_ACK_MODE`. -/
def DEFAULT_ACK_MODE : String := "client-individual"

/-- `StompSpec.CLIENT_ACK_MODES`: the ack modes that require explicit client
acknowledgment. -/
def CLIENT_ACK_MODES : List String := ["client", "client-individual"]

/-- The slice of `SubscriptionListener` state the subscribe/ack logic reads:
the `ack` constructor option and the headers captured at subscribe time
(`None` before `onSubscribe` has run). -/
structure SubscriptionListener where
  ack : Bool
  headers : Option (List (String × String))
  deriving DecidableEq

/-- Result of `SubscriptionListener.onSubscribe`: the listener state and the
(possibly defaulted) headers of the SUBSCRIBE frame. -/
structure OnSubscribeResult where
  listener : SubscriptionListener
  frameHeaders : List (String × String)
  deriving DecidableEq

/-- `SubscriptionListener.onSubscribe(connection, frame, context)`: ignore
frames for another context; return untouched when headers were already
captured (already subscribed); otherwise default the ack header and keep a
copy of the headers. -/
def SubscriptionListener.onSubscribe (sl : SubscriptionListener)
    (frameHeaders : List (String × String)) (contextIsSelf : Bool) : OnSubscribeResult :=
  if !contextIsSelf then ⟨sl, frameHeaders⟩
  else
    match sl.headers with
    | some _ => ⟨sl, frameHeaders⟩
    | none =>
        let h := assocSetdefault frameHeaders "ack" DEFAULT_ACK_MODE
        ⟨{ sl with headers := some h }, h⟩

/-- The `finally` step of `SubscriptionListener.onMessage`: when `ack` is
enabled, index the captured headers at the ack header and acknowledge when
the mode is client-managed (`self._headers[StompSpec.ACK_HEADER] in
StompSpec.CLIENT_ACK_MODES`); indexing raises a type error when the captured
headers are still absent, and a key error when the ack header is missing.
Afterwards the per-message handle is fired if still pending.  Returns whether
an ACK was sent and the handle afterwards. -/
def SubscriptionListener.onMessageFinalize (sl : SubscriptionListener)
    (waiting : WaitingDeferred) : Except StompErr (Bool × WaitingDeferred) :=
  let fired : WaitingDeferred := if waiting.called then waiting else ⟨true, some (.ok 0)⟩
  if sl.ack then
    match sl.headers with
    | none => .error (.typeError "NoneType object is not subscriptable")
    | some h =>
        match assocGet h "ack" with
        | none => .error (.keyError "ack")
        | some mode => .ok (CLIENT_ACK_MODES.contains mode, fired)
  else .ok (false, fired)

/-! Client subscription table (`Stomp.unsubscribe` in
`stompest/async/client.py`). -/

/-- A local subscription record of `Stomp._subscriptions`. -/
structure Subscription where
  destination : String
  ack : Bool
  errorDestination : Option String
  deriving DecidableEq

/-- The slice of `Stomp` state that `unsubscribe` touches: the subscription
table, keyed by token. -/
structure StompClient where
  subscriptions : List (Nat × Subscription)
  deriving DecidableEq

/-- Modelled from the spec: `session.unsubscribe(token, receipt)` builds the
UNSUBSCRIBE frame for the token (`StompSession` is outside the repository
fragment; the unknown-token failure of `Stomp.unsubscribe` is decided by the
client-side table pop below, as in the source). -/
def unsubscribeFrame (token : Nat) : Frame :=
  ⟨"UNSUBSCRIBE", [("id", toString token)], ""⟩

/-- Everything `Stomp.unsubscribe` does: the outcome, the frames handed to
the transport, and the client state afterwards. -/
structure UnsubscribeResult where
  result : Except StompErr Frame
  sentFrames : List Frame
  client : StompClient
  deriving DecidableEq

namespace Stomp

/-- `Stomp.unsubscribe(token, receipt)` on a connected client: build the
frame, pop the local subscription record — a missing token raises a key
error (logged as unknown subscription id) and nothing is sent — then hand
the frame to the transport. -/
def unsubscribe (c : StompClient) (token : Nat) : UnsubscribeResult :=
  let frame := unsubscribeFrame token
  match assocGet c.subscriptions token with
  | none => ⟨.error (.keyError "Cannot unsubscribe (subscription id unknown)"), [], c⟩
  | some _ => ⟨.ok frame, [frame], ⟨assocRemove c.subscriptions token⟩⟩

end Stomp

end Stompest

namespace Stompest

/-! Facts about the association-list dict operations. -/

/-- A key is absent from a dict exactly when lookup yields nothing. -/
theorem assocGet_eq_none_iff {κ α : Type} [DecidableEq κ] (l : List (κ × α)) (k : κ) :
    assocGet l k = none ↔ k ∉ l.map Prod.fst := by
  induction l with
  | nil => simp [assocGet]
  | cons p rest ih =>
      obtain ⟨k0, v0⟩ := p
      by_cases h : k0 = k
      · subst h; simp [assocGet]
      · simp [assocGet, h, ih, Ne.symm h]

/-- Removing a key from a dict with distinct keys makes it absent. -/
theorem assocGet_assocRemove_self {κ α : Type} [DecidableEq κ] (l : List (κ × α)) (k : κ)
    (hnd : (l.map Prod.fst).Nodup) : assocGet (assocRemove l k) k = none := by
  induction l with
  | nil => rfl
  | cons p rest ih =>
      obtain ⟨k0, v0⟩ := p
      simp only [List.map_cons, List.nodup_cons] at hnd
      by_cases h : k0 = k
      · subst h
        simpa [assocRemove, assocGet_eq_none_iff] using hnd.1
      · simp [assocRemove, h, assocGet, ih hnd.2]

/-- Lookup in a concatenation: the left part wins when it has the key. -/
theorem assocGet_append {κ α : Type} [DecidableEq κ] (l1 l2 : List (κ × α)) (k : κ) :
    assocGet (l1 ++ l2) k =
      (match assocGet l1 k with
       | some v => some v
       | none => assocGet l2 k) := by
  induction l1 with
  | nil => simp [assocGet]
  | cons p rest ih =>
      obtain ⟨k0, v0⟩ := p
      by_cases h : k0 = k <;> simp [assocGet, h, ih]

/-- After `setdefault`, the key is present. -/
theorem assocGet_assocSetdefault_self {κ α : Type} [DecidableEq κ]
    (l : List (κ × α)) (k : κ) (v : α) :
    ∃ u, assocGet (assocSetdefault l k v) k = some u := by
  cases hg : assocGet l k with
  | some u =>
      refine ⟨u, ?_⟩
      have hh : assocHas l k = true := by simp [assocHas, hg]
      simp [assocSetdefault, hh, hg]
  | none =>
      refine ⟨v, ?_⟩
      have hh : assocHas l k = false := by simp [assocHas, hg]
      simp [assocSetdefault, hh, assocGet_append, hg, assocGet]

/-- Updating a present key stores the new value. -/
theorem assocGet_assocUpdate_self {κ α : Type} [DecidableEq κ]
    (l : List (κ × α)) (k : κ) (v u : α) (h : assocGet l k = some u) :
    assocGet (assocUpdate l k v) k = some v := by
  induction l with
  | nil => simp [assocGet] at h
  | cons p rest ih =>
      obtain ⟨k0, v0⟩ := p
      by_cases hk : k0 = k
      · simp [assocUpdate, assocGet, hk]
      · simp only [assocGet, if_neg hk] at h
        simp [assocUpdate, assocGet, hk, ih h]

/-- In-place update does not change the key sequence. -/
theorem map_fst_assocUpdate {κ α : Type} [DecidableEq κ] (l : List (κ × α)) (k : κ) (v : α) :
    (assocUpdate l k v).map Prod.fst = l.map Prod.fst := by
  induction l with
  | nil => rfl
  | cons p rest ih =>
      obtain ⟨k0, v0⟩ := p
      by_cases hk : k0 = k <;> simp [assocUpdate, hk, ih]

/-- C1: registering a key in the correlation registry while a live entry for
the key exists fails with an error and does not overwrite the first entry —
the registry still holds the original handle, which is what completing the
entry via `pop` returns; after that removal the key is absent from the
registry and a fresh registration of the same key succeeds. -/
theorem c1_exclusive_registration {κ : Type} [DecidableEq κ]
    (op : InFlightOperations κ) (k : κ) (w w1 : WaitingDeferred)
    (hnd : op.keys.Nodup) (hlive : op.get k = some w) :
    (∃ e, op.setItem k w1 = .error e) ∧
    (∃ op1, op.pop k = .ok (w, op1) ∧ op1.get k = none ∧
      op1.setItem k w1 = .ok ⟨op1.entries ++ [(k, w1)]⟩) := by
  have hlive' : assocGet op.entries k = some w := hlive
  have hnd' : (op.entries.map Prod.fst).Nodup := hnd
  constructor
  · exact ⟨.keyError "already in progress",
      by simp [InFlightOperations.setItem, assocHas, hlive']⟩
  · refine ⟨⟨assocRemove op.entries k⟩, ?_, ?_, ?_⟩
    · simp [InFlightOperations.pop, hlive']
    · exact assocGet_assocRemove_self _ _ hnd'
    · have h2 : assocGet (assocRemove op.entries k) k = none :=
        assocGet_assocRemove_self _ _ hnd'
      simp [InFlightOperations.setItem, assocHas, h2]

/-- C1 witness: concrete registry with one live entry for key 0. -/
theorem c1_exclusive_registration_witness :
    (∃ e, (⟨[(0, WaitingDeferred.fresh)]⟩ : InFlightOperations ℕ).setItem 0
      WaitingDeferred.fresh = .error e) ∧
    (∃ op1, (⟨[(0, WaitingDeferred.fresh)]⟩ : InFlightOperations ℕ).pop 0 =
        .ok (WaitingDeferred.fresh, op1) ∧ op1.get 0 = none ∧
      op1.setItem 0 WaitingDeferred.fresh = .ok ⟨op1.entries ++ [(0, WaitingDeferred.fresh)]⟩) :=
  c1_exclusive_registration ⟨[(0, WaitingDeferred.fresh)]⟩ 0 WaitingDeferred.fresh
    WaitingDeferred.fresh (by decide) (by decide)

/-- C4 counterexample: in the test-timeout scenario on an empty registry with
key 0, the timeout-0 wait fails with exactly the supplied error, but right
after the expiry the key is STILL present in the registry (it only disappears
when the scoped acquisition exits), refuting removal as part of the expiry. -/
theorem c4_counterexample :
    (timeoutScenario (⟨[]⟩ : InFlightOperations ℕ) 0 (.cancelledError "hi")).map
      (fun r => (r.waitResult, (r.afterWait.get 0).isSome, (r.afterExit.get 0).isSome)) =
    .ok (.error (.cancelledError "hi"), true, false) := by decide

/-- C4 (amended): waiting with timeout 0 and a caller-supplied error on the
pending handle of a freshly registered key fails immediately with exactly
that error; the registry entry is not removed by the timeout expiry itself —
the key is still present, its handle now completed with the error — and it is
removed when the scoped acquisition exits, so it never outlives the scope. -/
theorem c4_timeout_zero {κ : Type} [DecidableEq κ] (op : InFlightOperations κ) (k : κ)
    (err : StompErr) (hfresh : op.get k = none) (hnd : op.keys.Nodup) :
    ∃ r : TimeoutScenarioResult κ, timeoutScenario op k err = .ok r ∧
      r.waitResult = .error err ∧
      r.afterWait.get k = some ⟨true, some (.error err)⟩ ∧
      r.afterExit.get k = none := by
  have hfresh' : assocGet op.entries k = none := hfresh
  have hnd' : (op.entries.map Prod.fst).Nodup := hnd
  have hhas : assocHas op.entries k = false := by simp [assocHas, hfresh']
  have hget1 : assocGet (op.entries ++ [(k, WaitingDeferred.fresh)]) k =
      some WaitingDeferred.fresh := by
    simp [assocGet_append, hfresh', assocGet]
  have hnd1 : ((op.entries ++ [(k, WaitingDeferred.fresh)]).map Prod.fst).Nodup := by
    simp only [List.map_append, List.map_cons, List.map_nil]
    rw [List.nodup_append]
    refine ⟨hnd', by simp, ?_⟩
    intro a ha hb
    simp at hb
    subst hb
    exact (assocGet_eq_none_iff _ _ |>.mp hfresh') ha
  have hrun : timeoutScenario op k err =
      .ok ⟨⟨op.entries ++ [(k, WaitingDeferred.fresh)]⟩, .error err,
        ⟨assocUpdate (op.entries ++ [(k, WaitingDeferred.fresh)]) k ⟨true, some (.error err)⟩⟩,
        ⟨assocRemove (assocUpdate (op.entries ++ [(k, WaitingDeferred.fresh)]) k
          ⟨true, some (.error err)⟩) k⟩⟩ := by
    simp [timeoutScenario, InFlightOperations.ctxEnter, InFlightOperations.setItem, hhas,
      WaitingDeferred.waitTimeout0, WaitingDeferred.fresh, InFlightOperations.ctxExit]
  refine ⟨_, hrun, rfl, ?_, ?_⟩
  · exact assocGet_assocUpdate_self _ _ _ _ hget1
  · apply assocGet_assocRemove_self
    rw [map_fst_assocUpdate]
    exact hnd1

/-- C4 witness: the amended behavior at a concrete registry and key. -/
theorem c4_timeout_zero_witness :
    ∃ r : TimeoutScenarioResult ℕ,
      timeoutScenario (⟨[]⟩ : InFlightOperations ℕ) 5 (.cancelledError "late") = .ok r ∧
      r.waitResult = .error (.cancelledError "late") ∧
      r.afterWait.get 5 = some ⟨true, some (.error (.cancelledError "late"))⟩ ∧
      r.afterExit.get 5 = none :=
  c4_timeout_zero ⟨[]⟩ 5 (.cancelledError "late") (by decide) (by decide)

/-- C2 counterexample: with the default outbound threshold 0.8 and a
negotiated outbound period of 1000 ms, an outbound firing with remaining
time 0 emits one heart-beat frame and records the send, but re-arms the
timer after 0.8 s — the threshold fraction of the period — and not after the
full period of 1000/1000 = 1 s, refuting the full-period rescheduling. -/
theorem c2_counterexample :
    beat DEFAULT_THRESHOLDS ⟨1000, 0, 0, 0⟩ .client (4/5) =
      ⟨1, none, some (4/5), ⟨1000, 0, 4/5, 0⟩⟩ ∧ ((4:ℚ)/5 ≠ 1000/1000) := by
  constructor
  · norm_num [beat, beatRemaining, HBSession.heartBeat, HBSession.lastActivity,
      HBThresholds.get, DEFAULT_THRESHOLDS]
  · norm_num

/-- C2 (amended): for a session with a non-zero outbound heart-beat period,
when the scheduler fires and the computed outbound remaining time is 0, it
emits exactly one heart-beat frame, records it as outbound activity
(`lastSent` becomes the current time), and re-arms the outbound timer after
the threshold fraction of the negotiated period
(`threshold * period / 1000` seconds), not after the full period. -/
theorem c2_outbound_beat (th : HBThresholds) (s : HBSession) (now : ℚ)
    (hp : s.clientHeartBeat ≠ 0)
    (h0 : beatRemaining th s .client now = 0) :
    beat th s .client now =
      ⟨1, none, some (max (th.client * s.clientHeartBeat / 1000) 0),
        { s with lastSent := now }⟩ := by
  simp only [beat, h0, lt_irrefl, if_false, if_true, if_pos rfl]
  simp [beatRemaining, HBSession.heartBeat, HBSession.lastActivity, HBThresholds.get,
    hp, sub_self, sub_zero]

/-- C2 witness: default thresholds, outbound period 1000 ms, no sends for
0.8 s. -/
theorem c2_outbound_beat_witness :
    beat DEFAULT_THRESHOLDS ⟨1000, 500, 0, 0⟩ .client (4/5) =
      ⟨1, none, some (max (DEFAULT_THRESHOLDS.client * (1000:ℚ) / 1000) 0),
        ⟨1000, 500, 4/5, 0⟩⟩ :=
  c2_outbound_beat DEFAULT_THRESHOLDS ⟨1000, 500, 0, 0⟩ (4/5) (by norm_num)
    (by norm_num [beatRemaining, HBSession.heartBeat, HBSession.lastActivity,
      HBThresholds.get, DEFAULT_THRESHOLDS])

/-- C8: for a session with a non-zero inbound (server) heart-beat period,
when the scheduler fires and the computed inbound remaining time is 0, the
firing escalates to connection failure with the heart-beat timeout error
exactly once — a single disconnect, no heart-beat frames — and the inbound
timer is not re-armed (`rearm = none`), so no further inbound firing is
scheduled. -/
theorem c8_inbound_timeout (th : HBThresholds) (s : HBSession) (now : ℚ)
    (hp : s.serverHeartBeat ≠ 0)
    (h0 : beatRemaining th s .server now = 0) :
    beat th s .server now =
      ⟨0, some (.connectionError "Server heart-beat timeout"), none, s⟩ := by
  simp [beat, h0]

/-- C8 witness: default thresholds, inbound period 1000 ms, no received
frames for 2 s. -/
theorem c8_inbound_timeout_witness :
    beat DEFAULT_THRESHOLDS ⟨0, 1000, 0, 0⟩ .server 2 =
      ⟨0, some (.connectionError "Server heart-beat timeout"), none, ⟨0, 1000, 0, 0⟩⟩ :=
  c8_inbound_timeout DEFAULT_THRESHOLDS ⟨0, 1000, 0, 0⟩ 2 (by norm_num)
    (by norm_num [beatRemaining, HBSession.heartBeat, HBSession.lastActivity,
      HBThresholds.get, DEFAULT_THRESHOLDS])

/-- The candidate loop over an all-failing failover sequence, with an
arbitrary warning log already accumulated. -/
theorem connectEndpointGo_all_fail (l : List (StompErr × ℚ)) (acc : List StompErr) :
    Stomp.connectEndpointGo (l.map fun a => (.fail a.1, a.2)) acc =
      (.error (exhaustedError (acc ++ l.map Prod.fst)), acc ++ l.map Prod.fst) := by
  induction l generalizing acc with
  | nil => simp [Stomp.connectEndpointGo]
  | cons p rest ih =>
      simp only [List.map_cons, Stomp.connectEndpointGo, ih, List.map]
      simp

/-- C3: when every broker candidate of the (finite) failover sequence fails
to connect, each per-candidate transport failure is swallowed and only
recorded in the warning log — the loop advances to the next candidate — and
once the sequence is exhausted the connect attempt fails with a connection
error summarizing the last failure. -/
theorem c3_failover_exhausted (pre : List (StompErr × ℚ)) (e : StompErr) (d : ℚ) :
    Stomp.connectEndpoint ((pre ++ [(e, d)]).map fun a => (.fail a.1, a.2)) =
      (.error (.connectionError ("Could not connect [" ++ errMessage e ++ "]")),
        (pre ++ [(e, d)]).map Prod.fst) := by
  unfold Stomp.connectEndpoint
  rw [connectEndpointGo_all_fail]
  simp [exhaustedError]

/-- C5: routing of an ERROR frame by the client: while the handshake wait is
still pending the frame rejects it with a protocol error; after the
handshake, a frame whose message header contains the AMQ marker text is only
logged and does not trigger disconnect, and every other ERROR frame triggers
disconnect with a protocol-error failure. -/
theorem c5_error_frame_routing (pending : Bool) (f : Frame) :
    (pending = true →
      Stomp.onError pending f =
        .rejectHandshake (.protocolError ("While trying to connect, received " ++ f.info))) ∧
    (pending = false → messageContainsMarker f = true →
      Stomp.onError pending f = .logOnly) ∧
    (pending = false → messageContainsMarker f = false →
      Stomp.onError pending f =
        .disconnectWith (.protocolError ("Received " ++ f.info))) := by
  refine ⟨fun h => by simp [Stomp.onError, h],
    fun h hm => by simp [Stomp.onError, h, hm],
    fun h hm => by simp [Stomp.onError, h, hm]⟩

/-- C5 witness: a marker-carrying ERROR frame is only logged; a plain ERROR
frame triggers disconnect; an ERROR frame during the handshake rejects the
handshake wait. -/
theorem c5_error_frame_routing_witness :
    Stomp.onError false
        ⟨"ERROR", [("message", "Unexpected ACK received for message-id 42")], ""⟩ = .logOnly ∧
    Stomp.onError false ⟨"ERROR", [("message", "boom")], ""⟩ =
      .disconnectWith (.protocolError
        ("Received " ++ Frame.info ⟨"ERROR", [("message", "boom")], ""⟩)) ∧
    Stomp.onError true ⟨"ERROR", [], ""⟩ =
      .rejectHandshake (.protocolError
        ("While trying to connect, received " ++ Frame.info ⟨"ERROR", [], ""⟩)) :=
  ⟨(c5_error_frame_routing false _).2.1 rfl (by decide),
   (c5_error_frame_routing false _).2.2 rfl (by decide),
   (c5_error_frame_routing true _).1 rfl⟩

/-- C6 counterexample: after `onDisconnect` records the failure "boom" (the
first non-null reason ever set) a second `onDisconnect` with a null reason
resets the record, and the terminal signal at connection loss fires with
success instead of carrying that first recorded failure. -/
theorem c6_counterexample :
    ((((DisconnectListener.onAdd.onDisconnect (some (.protocolError "boom"))).onDisconnect
        none).onConnectionLost "gone").signal = TerminalSignal.success) ∧
    (DisconnectListener.onAdd.onDisconnect (some (.protocolError "boom"))).disconnectReason =
      some (.protocolError "boom") := by decide

/-- C6 (amended): a recorded non-null reason is never overridden by a later
non-null reason (first wins), but a null reason supplied to `onDisconnect`
resets the record; the terminal signal carries the reason recorded at
connection loss — the recorded failure if one is present, success if the
record is null after a disconnect request, and a substituted unexpected-loss
connection error when the loss precedes any disconnect request. -/
theorem c6_first_reason (dl : DisconnectListener) (r r0 : StompErr) (msg : String) :
    ((dl.disconnectReason = some r0) → ((dl.onDisconnect (some r)).disconnectReason = some r0)) ∧
    ((dl.onDisconnect none).disconnectReason = none) ∧
    (dl.disconnectReason = some r0 → (dl.onConnectionLost msg).signal = .failed r0) ∧
    (dl.disconnecting = true → dl.disconnectReason = none →
      (dl.onConnectionLost msg).signal = .success) ∧
    (dl.disconnecting = false → dl.disconnectReason = none →
      (dl.onConnectionLost msg).signal =
        .failed (.connectionError ("Unexpected connection loss [" ++ msg ++ "]"))) := by
  obtain ⟨b, ro⟩ := dl
  refine ⟨?_, ?_, ?_, ?_, ?_⟩
  · intro h
    cases ro with
    | none => simp at h
    | some x =>
        cases h
        cases b <;> simp [DisconnectListener.onDisconnect, DisconnectListener.setReason]
  · cases b <;> simp [DisconnectListener.onDisconnect, DisconnectListener.setReason]
  · intro h
    cases ro with
    | none => simp at h
    | some x =>
        cases h
        cases b <;>
          simp [DisconnectListener.onConnectionLost, DisconnectListener.setReason]
  · intro hb h
    simp only at hb h
    subst hb
    subst h
    simp [DisconnectListener.onConnectionLost]
  · intro hb h
    simp only at hb h
    subst hb
    subst h
    simp [DisconnectListener.onConnectionLost, DisconnectListener.setReason]

/-- C6 witness: first non-null reason survives a later one; terminal signal
outcomes for a null record with and without a preceding disconnect request. -/
theorem c6_first_reason_witness :
    (((⟨false, some (.protocolError "first")⟩ : DisconnectListener).onDisconnect
        (some (.protocolError "second"))).disconnectReason = some (.protocolError "first")) ∧
    (((⟨true, none⟩ : DisconnectListener).onConnectionLost "gone").signal =
      TerminalSignal.success) ∧
    (((⟨false, none⟩ : DisconnectListener).onConnectionLost "gone").signal =
      .failed (.connectionError "Unexpected connection loss [gone]")) :=
  ⟨(c6_first_reason ⟨false, some (.protocolError "first")⟩ (.protocolError "second")
      (.protocolError "first") "x").1 rfl,
   (c6_first_reason ⟨true, none⟩ (.protocolError "x") (.protocolError "x") "gone").2.2.2.1 rfl rfl,
   (c6_first_reason ⟨false, none⟩ (.protocolError "x") (.protocolError "x") "gone").2.2.2.2 rfl rfl⟩

/-- C7: once a `SubscriptionListener` has captured its subscription headers,
any later `onSubscribe` invocation — with its own routing context (a replay
re-subscription) or with another context — leaves the captured headers,
including the ack-mode header, unchanged. -/
theorem c7_replay_preserves_headers (sl : SubscriptionListener)
    (h0 : List (String × String)) (hsub : sl.headers = some h0)
    (fh : List (String × String)) (ctx : Bool) :
    ((sl.onSubscribe fh ctx).listener).headers = some h0 := by
  cases ctx <;> simp [SubscriptionListener.onSubscribe, hsub]

/-- C7 witness: a replay re-subscription with different frame headers leaves
the originally captured ack mode intact. -/
theorem c7_replay_preserves_headers_witness :
    (((⟨true, some [("ack", "client")]⟩ : SubscriptionListener).onSubscribe
        [("ack", "auto"), ("destination", "/queue/q")] true).listener).headers =
      some [("ack", "client")] :=
  c7_replay_preserves_headers ⟨true, some [("ack", "client")]⟩ [("ack", "client")] rfl
    [("ack", "auto"), ("destination", "/queue/q")] true

/-- C9: unsubscribing with a token that is not in the subscription table
fails with an unknown-subscription error, sends no frame to the transport,
and leaves the table unchanged; with a present token, the local record is
removed (the token is absent afterwards when the table keys are distinct)
and the unsubscribe frame is sent. -/
theorem c9_unsubscribe (c : StompClient) (token : Nat) :
    (assocGet c.subscriptions token = none →
      Stomp.unsubscribe c token =
        ⟨.error (.keyError "Cannot unsubscribe (subscription id unknown)"), [], c⟩) ∧
    (∀ sub, assocGet c.subscriptions token = some sub →
      Stomp.unsubscribe c token =
        ⟨.ok (unsubscribeFrame token), [unsubscribeFrame token],
          ⟨assocRemove c.subscriptions token⟩⟩ ∧
      ((c.subscriptions.map Prod.fst).Nodup →
        assocGet (assocRemove c.subscriptions token) token = none)) := by
  constructor
  · intro h
    simp [Stomp.unsubscribe, h]
  · intro sub h
    exact ⟨by simp [Stomp.unsubscribe, h], fun hnd => assocGet_assocRemove_self _ _ hnd⟩

/-- C9 witness: unknown token 7 on an empty table fails and sends nothing;
known token 7 is removed and the frame is sent. -/
theorem c9_unsubscribe_witness :
    (Stomp.unsubscribe ⟨[]⟩ 7 =
      ⟨.error (.keyError "Cannot unsubscribe (subscription id unknown)"), [], ⟨[]⟩⟩) ∧
    (Stomp.unsubscribe ⟨[(7, ⟨"/queue/q", true, none⟩)]⟩ 7 =
      ⟨.ok (unsubscribeFrame 7), [unsubscribeFrame 7],
        ⟨assocRemove [(7, ⟨"/queue/q", true, none⟩)] 7⟩⟩) ∧
    assocGet (assocRemove [((7:ℕ), (⟨"/queue/q", true, none⟩ : Subscription))] 7) 7 = none :=
  ⟨(c9_unsubscribe ⟨[]⟩ 7).1 rfl,
   ((c9_unsubscribe ⟨[(7, ⟨"/queue/q", true, none⟩)]⟩ 7).2 ⟨"/queue/q", true, none⟩ rfl).1,
   ((c9_unsubscribe ⟨[(7, ⟨"/queue/q", true, none⟩)]⟩ 7).2 ⟨"/queue/q", true, none⟩ rfl).2
     (by decide)⟩

/-- C10: for an ack-enabled `SubscriptionListener` whose captured headers are
still absent (its `onSubscribe` never ran), the finalization step of
`onMessage` raises instead of completing normally, because the ack decision
indexes the captured headers; once `onSubscribe` has run for its own context,
the finalization completes normally (the ack header is always present after
the capture, by defaulting). -/
theorem c10_ack_requires_subscribe (sl : SubscriptionListener)
    (w w1 : WaitingDeferred) (fh : List (String × String))
    (hack : sl.ack = true) (hnone : sl.headers = none) :
    (∃ e, sl.onMessageFinalize w = .error e) ∧
    (∃ ackSent fired,
      ((sl.onSubscribe fh true).listener).onMessageFinalize w1 = .ok (ackSent, fired)) := by
  constructor
  · exact ⟨.typeError "NoneType object is not subscriptable",
      by simp [SubscriptionListener.onMessageFinalize, hack, hnone]⟩
  · have hsub : (sl.onSubscribe fh true).listener =
        { sl with headers := some (assocSetdefault fh "ack" DEFAULT_ACK_MODE) } := by
      simp [SubscriptionListener.onSubscribe, hnone]
    obtain ⟨u, hu⟩ := assocGet_assocSetdefault_self fh "ack" DEFAULT_ACK_MODE
    refine ⟨CLIENT_ACK_MODES.contains u,
      if w1.called then w1 else ⟨true, some (.ok 0)⟩, ?_⟩
    simp [hsub, SubscriptionListener.onMessageFinalize, hack, hu]

/-- C10 witness: an ack-enabled listener that never subscribed errors in
finalization; after its first `onSubscribe` it completes normally. -/
theorem c10_ack_requires_subscribe_witness :
    (∃ e, (⟨true, none⟩ : SubscriptionListener).onMessageFinalize WaitingDeferred.fresh =
      .error e) ∧
    (∃ ackSent fired,
      (((⟨true, none⟩ : SubscriptionListener).onSubscribe [] true).listener).onMessageFinalize
        WaitingDeferred.fresh = .ok (ackSent, fired)) :=
  c10_ack_requires_subscribe ⟨true, none⟩ WaitingDeferred.fresh WaitingDeferred.fresh []
    rfl rfl

end Stompest
